import Mathlib

/-!
Shallow embedding of the task-graph orchestration core of the
AgentAI_Langgraph repository (src/src), and proofs of the spec claims.

The data model follows test_states.py (the Task shape the code actually
reads and writes: state.py declares a `context` field instead of
`dependencies`, but every code path uses `dependencies`).  The Scheduler
selection is from nodes/worker.py, the plan validator and planner from
nodes/manager_planning.py, the aggregator from nodes/aggregator.py, the
tester from nodes/tester.py, the worker execution contract from
nodes/worker_agents/base_worker.py, and the orchestration graph from
create_genesis_workflow in test_states.py (main.py builds a reduced
variant of the same graph without the worker self-loop and without the
aggregator-to-tester edge).

Python floats are embedded as Lean Float; no theorem depends on float
arithmetic.  Effectful stages (LLM calls, JSON parsing, subprocess runs)
are injected as explicit Except-valued parameters at the granularity at
which the source consumes their results.
-/

namespace Genesis

/-- A unit of work, as read and written by the orchestration code. -/
structure Task where
  id : Int
  role : String
  goal : String
  status : String
  dependencies : List Int
  result : Option String
  generated_test_cases : Option (List String)
  self_validation_status : Option String
deriving Repr, DecidableEq

/-- Tester verdict plus details, as constructed by tester.py. -/
structure ValidationReport where
  status : String
  details : String
deriving Repr, DecidableEq

/-- The session state threaded through every node (test_states.py). -/
structure AgentState where
  user_request : String
  clarified_request : String
  is_clarification_needed : Bool
  clarification_questions : List String
  retrieved_context : List String
  task_plan : List Task
  completed_tasks : List Task
  final_deliverable : String
  validation_report : ValidationReport
  cost_estimate : Float
  current_cost : Float
  user_interrupt : Option String
  manager_analysis : Option String

/-- Dependency check from worker.py line 44: every id in the task's
dependencies list is among the completed ids. -/
def depsMet (completedIds : List Int) (t : Task) : Bool :=
  t.dependencies.all (fun d => completedIds.contains d)

/-- Scheduler selection from worker.py lines 32 to 46: filter the plan to
pending tasks, then take the first one whose dependencies are met. -/
def nextEligible (plan : List Task) (completedIds : List Int) : Option Task :=
  (plan.filter (fun t => t.status == "pending")).find? (depsMet completedIds)

/-- Routing predicate from test_states.py check_worker_completion:
aggregate when no task is pending or in progress, else continue. -/
def check_worker_completion (s : AgentState) : String :=
  let pending_tasks := s.task_plan.filter
    (fun t => t.status == "pending" || t.status == "in_progress")
  if pending_tasks.isEmpty then "aggregate" else "continue"

/-- Routing after the manager node (edges/route_after_manager.py). -/
def route_after_manager (s : AgentState) : String :=
  if s.user_interrupt.isSome then "replan"
  else if s.is_clarification_needed then "clarify"
  else "plan"

/-- Routing after the tester node (edges/route_after_tester.py). -/
def route_after_tester (s : AgentState) : String :=
  if s.validation_report.status == "Passed" then "passed" else "failed"

/-- Nodes of the orchestration graph built by create_genesis_workflow in
test_states.py. -/
inductive GNode where
  | manager
  | retriever
  | manager_planning
  | resource_monitor
  | worker
  | aggregator
  | tester
deriving Repr, DecidableEq

/-- Successor function of the compiled graph of create_genesis_workflow
(test_states.py lines 436 to 492).  none stands for END.  The catch-all
arms are unreachable because each routing function only returns the
listed labels. -/
def genesisSuccessor : GNode → AgentState → Option GNode
  | GNode.manager, s =>
      match route_after_manager s with
      | "clarify" => none
      | "plan" => some GNode.retriever
      | "replan" => some GNode.manager_planning
      | _ => none
  | GNode.retriever, _ => some GNode.manager_planning
  | GNode.manager_planning, _ => some GNode.resource_monitor
  | GNode.resource_monitor, _ => some GNode.worker
  | GNode.worker, s =>
      match check_worker_completion s with
      | "continue" => some GNode.worker
      | "aggregate" => some GNode.aggregator
      | _ => none
  | GNode.aggregator, _ => some GNode.tester
  | GNode.tester, s =>
      match route_after_tester s with
      | "passed" => none
      | "failed" => some GNode.manager_planning
      | _ => none

/-- Valid role set of manager_planning.py validate_task_plan. -/
def valid_roles : List String :=
  ["ArchitectWorker", "BackendWorker", "FrontendWorker", "TestWorker",
   "UIWorker", "DevOpsWorker"]

/-- Per-dependency checks of manager_planning.py lines 86 to 90: a
dependency must be a positive integer (the isinstance check cannot fail
in the typed embedding) and must be strictly below the task's own id. -/
def checkDeps (taskId : Int) : List Int → Except String Unit
  | [] => Except.ok ()
  | dep :: rest =>
      if dep < 1 then
        Except.error ("Invalid dependency ID " ++ toString dep)
      else if taskId ≤ dep then
        Except.error ("cannot depend on future task " ++ toString dep)
      else checkDeps taskId rest

/-- Loop body of validate_task_plan, carrying the set of ids seen so far
(the required-fields check of line 71 cannot fail in the typed
embedding; the role and id checks and the duplicate check are as in
lines 74 to 90 of manager_planning.py). -/
def validateTasksFrom : List Task → List Int → Except String Bool
  | [], _ => Except.ok true
  | task :: rest, task_ids =>
      if task.id < 1 then
        Except.error ("Invalid task ID: " ++ toString task.id)
      else if task_ids.contains task.id then
        Except.error ("Duplicate task ID: " ++ toString task.id)
      else if !(valid_roles.contains task.role) then
        Except.error ("Invalid role " ++ task.role)
      else
        match checkDeps task.id task.dependencies with
        | Except.error e => Except.error e
        | Except.ok _ => validateTasksFrom rest (task.id :: task_ids)

/-- Plan validator from manager_planning.py lines 55 to 92; raising
ValueError is embedded as returning an error value. -/
def validate_task_plan (tasks : List Task) : Except String Bool :=
  validateTasksFrom tasks []

/-- create_task_objects from manager_planning.py lines 119 to 141: copy
id, role, goal, status and dependencies from the raw data and reset the
remaining fields to None. -/
def create_task_objects (task_data : List Task) : List Task :=
  task_data.map (fun t =>
    { id := t.id, role := t.role, goal := t.goal, status := t.status,
      dependencies := t.dependencies, result := none,
      generated_test_cases := none, self_validation_status := none })

/-- Planner node from manager_planning.py lines 144 to 202.  The LLM
call plus the json.loads parse of its content is injected as `parsed`:
an error value stands for an exception raised by llm.invoke or by the
parse (both are caught by the node's try block, as is a validation
error, and all of them lead to an empty task plan). -/
def manager_planning_node (state : AgentState)
    (parsed : Except String (List Task × String)) : AgentState :=
  match parsed with
  | Except.error _ => { state with task_plan := [] }
  | Except.ok (tasks, _reasoning) =>
      match validate_task_plan tasks with
      | Except.error _ => { state with task_plan := [] }
      | Except.ok _ =>
          let task_objects := create_task_objects tasks
          let state' := { state with task_plan := task_objects }
          if state'.user_interrupt.isSome then
            { state' with user_interrupt := none }
          else state'

/-- Rendering of an optional string inside a Python f-string: None is
rendered as the text None. -/
def pyStr : Option String → String
  | some s => s
  | none => "None"

/-- One deliverable line per completed task, aggregator.py line 40. -/
def taskLine (t : Task) : String :=
  t.role ++ ": " ++ pyStr t.result

/-- The deliverable_parts accumulation loop of aggregator.py lines 37
to 40, in the order of the completed_tasks list. -/
def deliverable_parts (completed : List Task) : List String :=
  completed.foldl (fun acc t => acc ++ [taskLine t]) []

/-- The f-string of aggregator.py lines 43 to 52.  The two-decimal
rendering of the cost figure is abstracted as toString; no claim depends
on the cost text. -/
def deliverable_text (s : AgentState) (parts : List String) : String :=
  "\n    PROJECT DELIVERABLE:\n    User Request: " ++ s.clarified_request ++
  "\n    \n    Integrated Components:\n    " ++
  String.intercalate "\n" (parts.map (fun p => "- " ++ p)) ++
  "\n    \n    Total Components: " ++ toString parts.length ++
  "\n    Cost: $" ++ toString s.current_cost ++ "\n    "

/-- Aggregator node from aggregator.py lines 5 to 56: a fixed
placeholder for an empty completed list, otherwise the assembled
deliverable. -/
def aggregator_node (state : AgentState) : AgentState :=
  if state.completed_tasks.isEmpty then
    { state with final_deliverable := "No work completed yet" }
  else
    { state with final_deliverable :=
        deliverable_text state (deliverable_parts state.completed_tasks) }

/-- Tester node from tester.py lines 3 to 50.  validation_passed is the
constant True of line 34; the dead Failed branch is kept as in the
source. -/
def tester (state : AgentState) : AgentState :=
  let user_request := state.clarified_request
  let validation_passed := true
  let validation_report :=
    if validation_passed then
      ({ status := "Passed",
         details := "All validation checks passed. Deliverable meets requirements for: "
           ++ user_request } : ValidationReport)
    else
      ({ status := "Failed",
         details := "Validation failed - see detailed report for issues" } : ValidationReport)
  { state with validation_report := validation_report }

/-- Worker node from worker.py lines 5 to 86 (identical logic in
test_states.py lines 251 to 320): select the first pending task whose
dependencies are completed, execute it with a simulated build and a
validation that always passes, append it to completed_tasks and add the
unit cost.  Python mutates the selected dict in place; here the plan
entry equal to the selected task is replaced by its executed form. -/
def worker_node (state : AgentState) : AgentState :=
  let pending_tasks := state.task_plan.filter (fun t => t.status == "pending")
  let completed_tasks := state.completed_tasks
  if pending_tasks.isEmpty then state
  else
    let completed_task_ids := completed_tasks.map (fun t => t.id)
    match pending_tasks.find? (depsMet completed_task_ids) with
    | none => state
    | some t =>
        let simulated_result :=
          "Completed " ++ t.goal ++ " - Generated code/components for " ++ t.role
        let test_cases :=
          ["Unit test for " ++ t.role ++ " component",
           "Integration test for " ++ t.goal.take 30 ++ "...",
           "Performance test for core functionality"]
        let validation_passed := true
        let executed :=
          if validation_passed then
            { t with result := some simulated_result,
                     generated_test_cases := some test_cases,
                     self_validation_status := some "Passed",
                     status := "completed" }
          else
            { t with result := some simulated_result,
                     generated_test_cases := some test_cases,
                     self_validation_status := some "Failed",
                     status := "failed" }
        { state with
            task_plan := state.task_plan.map (fun u => if u == t then executed else u),
            completed_tasks :=
              if validation_passed then completed_tasks ++ [executed] else completed_tasks,
            current_cost := state.current_cost + 2.50 }

/-- A test outcome as recorded by base_worker.py TestResult. -/
structure TestResult where
  passed : Bool
  message : String
deriving Repr, DecidableEq

/-- A generated test case as consumed by base_worker.py execute_task
(name, description and code fields of the parsed JSON). -/
structure GeneratedTest where
  name : String
  description : String
  code : String
deriving Repr, DecidableEq

/-- Injected outcomes of the effectful stages inside the try block of
BaseWorker.execute_task: the abstract build call, the test-generation
step (generate_tests returns a list, but reading name, description and
code off the parsed entries can raise a KeyError, folded into this
stage's error case), and the test-execution step.  An error value stands
for an exception escaping that stage. -/
structure PipelineRun where
  build : Except String (Option String)
  generate_tests : Except String (List GeneratedTest)
  execute_tests : Except String (List TestResult)

/-- The except branch of BaseWorker.execute_task lines 249 to 254. -/
def taskOnError (t : Task) (e : String) : Task :=
  { t with status := "failed",
           self_validation_status := some "Failed",
           result := some ("Error: " ++ e) }

/-- BaseWorker.execute_task lines 198 to 255: build, generate tests,
execute tests, store the test cases (the source stores records with
name, description and code; only the names are kept here, which no claim
inspects), set self_validation_status from the test outcomes and set the
final status; any stage exception is caught at the boundary. -/
def execute_task (task : Task) (run : PipelineRun) : Task :=
  match run.build with
  | Except.error e => taskOnError task e
  | Except.ok build_result =>
      let task1 := { task with result := build_result }
      match run.generate_tests with
      | Except.error e => taskOnError task1 e
      | Except.ok test_cases =>
          match run.execute_tests with
          | Except.error e => taskOnError task1 e
          | Except.ok test_results =>
              let task2 := { task1 with
                generated_test_cases := some (test_cases.map (fun (c : GeneratedTest) => c.name)) }
              let all_passed := test_results.all (fun r => r.passed)
              if all_passed then
                { task2 with self_validation_status := some "Passed",
                             status := "completed" }
              else
                { task2 with self_validation_status := some "Failed",
                             status := "failed" }

/-- A concrete session state used as the base of the witness states (the
initial_state literal of test_states.py run_basic_demo). -/
def baseState : AgentState :=
  { user_request := "Create a task management web application with user authentication",
    clarified_request := "",
    is_clarification_needed := false,
    clarification_questions := [],
    retrieved_context := [],
    task_plan := [],
    completed_tasks := [],
    final_deliverable := "",
    validation_report := { status := "", details := "" },
    cost_estimate := 0.0,
    current_cost := 0.0,
    user_interrupt := none,
    manager_analysis := none }

lemma nextEligible_mem_pending {plan : List Task} {cids : List Int} {t : Task}
    (h : nextEligible plan cids = some t) : t ∈ plan ∧ t.status = "pending" := by
  unfold nextEligible at h
  have h1 := List.mem_of_find?_eq_some h
  have h2 := List.mem_filter.mp h1
  exact ⟨h2.1, by simpa using h2.2⟩

lemma check_worker_eq (s : AgentState) :
    check_worker_completion s =
      if (s.task_plan.filter
          (fun t => t.status == "pending" || t.status == "in_progress")).isEmpty
      then "aggregate" else "continue" := rfl

lemma check_worker_cases (s : AgentState) :
    check_worker_completion s = "aggregate" ∨ check_worker_completion s = "continue" := by
  rw [check_worker_eq]
  by_cases h : (s.task_plan.filter
      (fun t => t.status == "pending" || t.status == "in_progress")).isEmpty = true
  · rw [if_pos h]
    exact Or.inl rfl
  · rw [if_neg h]
    exact Or.inr rfl

lemma active_filter_nil_iff (s : AgentState) :
    s.task_plan.filter (fun t => t.status == "pending" || t.status == "in_progress") = [] ↔
      ∀ t ∈ s.task_plan, ¬(t.status = "pending" ∨ t.status = "in_progress") := by
  rw [List.filter_eq_nil_iff]
  constructor
  · intro h t ht
    simpa using h t ht
  · intro h t ht
    simpa using h t ht

lemma check_worker_aggregate_iff (s : AgentState) :
    check_worker_completion s = "aggregate" ↔
      ∀ t ∈ s.task_plan, ¬(t.status = "pending" ∨ t.status = "in_progress") := by
  rw [check_worker_eq]
  by_cases h : (s.task_plan.filter
      (fun t => t.status == "pending" || t.status == "in_progress")).isEmpty = true
  · rw [if_pos h]
    exact iff_of_true rfl ((active_filter_nil_iff s).mp (List.isEmpty_iff.mp h))
  · rw [if_neg h]
    refine iff_of_false (by decide) (fun hall => h ?_)
    rw [List.isEmpty_iff]
    exact (active_filter_nil_iff s).mpr hall

/-- C1: from the Worker state the graph of create_genesis_workflow loops
back into Worker whenever the Scheduler finds an eligible pending task or
is blocked while pending tasks remain, and it moves to Aggregate exactly
when no task is pending or in progress (the Scheduler's DONE case). -/
theorem c1_worker_loop_routing (s : AgentState) :
    ((∃ t, nextEligible s.task_plan (s.completed_tasks.map (fun c => c.id)) = some t) ∨
      (nextEligible s.task_plan (s.completed_tasks.map (fun c => c.id)) = none ∧
        ∃ t ∈ s.task_plan, t.status = "pending") →
      genesisSuccessor GNode.worker s = some GNode.worker) ∧
    (genesisSuccessor GNode.worker s = some GNode.aggregator ↔
      ∀ t ∈ s.task_plan, ¬(t.status = "pending" ∨ t.status = "in_progress")) := by
  have hpend : ∀ t ∈ s.task_plan, t.status = "pending" →
      check_worker_completion s = "continue" := by
    intro t ht hst
    rcases check_worker_cases s with hc | hc
    · exfalso
      exact (check_worker_aggregate_iff s).mp hc t ht (Or.inl hst)
    · exact hc
  constructor
  · intro h
    have hcont : check_worker_completion s = "continue" := by
      rcases h with ⟨t, ht⟩ | ⟨_, t, ht, hst⟩
      · obtain ⟨hmem, hst⟩ := nextEligible_mem_pending ht
        exact hpend t hmem hst
      · exact hpend t ht hst
    simp [genesisSuccessor, hcont]
  · constructor
    · intro h
      rcases check_worker_cases s with hc | hc
      · exact (check_worker_aggregate_iff s).mp hc
      · rw [show genesisSuccessor GNode.worker s =
            (match check_worker_completion s with
             | "continue" => some GNode.worker
             | "aggregate" => some GNode.aggregator
             | _ => none) from rfl, hc] at h
        exact absurd h (by decide)
    · intro h
      have hc := (check_worker_aggregate_iff s).mpr h
      simp [genesisSuccessor, hc]

/-- Witness for C1: a state with one eligible pending task routes from
Worker back to Worker. -/
def c1_pending_task : Task :=
  { id := 1, role := "ArchitectWorker", goal := "design", status := "pending",
    dependencies := [], result := none, generated_test_cases := none,
    self_validation_status := none }

def c1_state : AgentState := { baseState with task_plan := [c1_pending_task] }

theorem c1_witness :
    genesisSuccessor GNode.worker c1_state = some GNode.worker :=
  (c1_worker_loop_routing c1_state).1 (Or.inl ⟨c1_pending_task, by decide⟩)

/-- C2: the graph of create_genesis_workflow has an unconditional edge
from Aggregate to Tester, and from Tester it reaches END on a Passed
report and goes back to Planning (manager_planning) on a Failed
report. -/
theorem c2_acceptance_gate_routing (s : AgentState) :
    genesisSuccessor GNode.aggregator s = some GNode.tester ∧
    (s.validation_report.status = "Passed" → genesisSuccessor GNode.tester s = none) ∧
    (s.validation_report.status = "Failed" →
      genesisSuccessor GNode.tester s = some GNode.manager_planning) := by
  refine ⟨rfl, ?_, ?_⟩
  · intro h
    simp [genesisSuccessor, route_after_tester, h]
  · intro h
    simp [genesisSuccessor, route_after_tester, h]

def c2_state_passed : AgentState :=
  { baseState with validation_report := { status := "Passed", details := "ok" } }

def c2_state_failed : AgentState :=
  { baseState with validation_report := { status := "Failed", details := "bad" } }

theorem c2_witness :
    genesisSuccessor GNode.aggregator c2_state_passed = some GNode.tester ∧
    genesisSuccessor GNode.tester c2_state_passed = none ∧
    genesisSuccessor GNode.tester c2_state_failed = some GNode.manager_planning :=
  ⟨(c2_acceptance_gate_routing c2_state_passed).1,
   (c2_acceptance_gate_routing c2_state_passed).2.1 rfl,
   (c2_acceptance_gate_routing c2_state_failed).2.2 rfl⟩

/-- C3: whenever the Scheduler selects a task, every dependency id of the
selected task is among the completed ids. -/
theorem c3_scheduler_respects_dependencies (plan : List Task) (cids : List Int)
    (t : Task) (h : nextEligible plan cids = some t) :
    ∀ d ∈ t.dependencies, d ∈ cids := by
  have hd := List.find?_some h
  unfold depsMet at hd
  rw [List.all_eq_true] at hd
  intro d hdep
  have := hd d hdep
  simpa [List.elem_iff] using this

def c3_task : Task :=
  { id := 2, role := "BackendWorker", goal := "api", status := "pending",
    dependencies := [1], result := none, generated_test_cases := none,
    self_validation_status := none }

theorem c3_witness : (1 : Int) ∈ [(1 : Int)] :=
  c3_scheduler_respects_dependencies [c3_task] [1] c3_task (by decide) 1 (by decide)

def c4_taskA : Task :=
  { id := 1, role := "FrontendWorker", goal := "ui", status := "pending",
    dependencies := [], result := none, generated_test_cases := none,
    self_validation_status := none }

def c4_taskB : Task :=
  { id := 2, role := "BackendWorker", goal := "api", status := "pending",
    dependencies := [], result := none, generated_test_cases := none,
    self_validation_status := none }

/-- Counterexample to C4: with the plan list ordered id 2 before id 1 and
both tasks eligible (pending, no dependencies), the Scheduler selects the
task with id 2, not the eligible task with the lowest id. -/
theorem c4_counterexample :
    nextEligible [c4_taskB, c4_taskA] [] = some c4_taskB ∧
    c4_taskA.id < c4_taskB.id ∧
    c4_taskA.status = "pending" ∧ depsMet [] c4_taskA = true := by
  refine ⟨by decide, by decide, rfl, rfl⟩

/-- C4 as amended: the Scheduler selects the first task in the Plan's
list order that is pending with all dependencies completed; it therefore
selects the lowest eligible id only when the list is ordered by id. -/
theorem c4_amended_list_order_selection (plan : List Task) (cids : List Int) :
    nextEligible plan cids =
      plan.find? (fun t => t.status == "pending" && depsMet cids t) := by
  induction plan with
  | nil => rfl
  | cons a rest ih =>
    unfold nextEligible at *
    by_cases hp : (a.status == "pending") = true
    · by_cases hd : depsMet cids a = true
      · simp [List.filter_cons, List.find?_cons, hp, hd]
      · simp [List.filter_cons, List.find?_cons, hp, hd, ih]
    · simp [List.filter_cons, List.find?_cons, hp, ih]

def c5_dangling_task : Task :=
  { id := 2, role := "BackendWorker", goal := "api", status := "pending",
    dependencies := [1], result := none, generated_test_cases := none,
    self_validation_status := none }

/-- Counterexample to C5: a single-task list whose only task (id 2)
depends on id 1, which belongs to no task in the list, passes
validate_task_plan instead of being rejected. -/
theorem c5_counterexample :
    validate_task_plan [c5_dangling_task] = Except.ok true ∧
    (1 : Int) ∈ c5_dangling_task.dependencies ∧
    ∀ t ∈ [c5_dangling_task], t.id ≠ 1 := by
  refine ⟨rfl, by decide, by decide⟩

lemma checkDeps_ok {taskId : Int} {deps : List Int}
    (h : checkDeps taskId deps = Except.ok ()) :
    ∀ d ∈ deps, 1 ≤ d ∧ d < taskId := by
  induction deps with
  | nil =>
    intro d hd
    cases hd
  | cons a rest ih =>
    intro d hd
    unfold checkDeps at h
    by_cases h1 : a < 1
    · rw [if_pos h1] at h
      cases h
    · rw [if_neg h1] at h
      by_cases h2 : taskId ≤ a
      · rw [if_pos h2] at h
        cases h
      · rw [if_neg h2] at h
        rcases List.mem_cons.mp hd with rfl | hd'
        · exact ⟨by omega, by omega⟩
        · exact ih h d hd'

lemma validateTasksFrom_ok {tasks : List Task} {ids : List Int}
    (h : validateTasksFrom tasks ids = Except.ok true) :
    ∀ t ∈ tasks, ∀ d ∈ t.dependencies, 1 ≤ d ∧ d < t.id := by
  induction tasks generalizing ids with
  | nil =>
    intro t ht
    cases ht
  | cons a rest ih =>
    intro t ht
    unfold validateTasksFrom at h
    by_cases h1 : a.id < 1
    · rw [if_pos h1] at h
      cases h
    · rw [if_neg h1] at h
      by_cases h2 : ids.contains a.id = true
      · rw [if_pos h2] at h
        cases h
      · rw [if_neg h2] at h
        by_cases h3 : (!valid_roles.contains a.role) = true
        · rw [if_pos h3] at h
          cases h
        · rw [if_neg h3] at h
          rcases hcd : checkDeps a.id a.dependencies with e | u
          · rw [hcd] at h
            cases h
          · rw [hcd] at h
            rcases List.mem_cons.mp ht with rfl | ht'
            · exact checkDeps_ok hcd
            · exact ih h t ht'

/-- C5 as amended: validate_task_plan rejects a dependency exactly when
it is below 1 or at least the task's own id (so forward references and
self-loops are rejected at construction time); a dependency id strictly
below the task's id is accepted even when no task in the list carries
that id.  Consequently every accepted plan satisfies 1 ≤ d < t.id for
each dependency d of each task t. -/
theorem c5_amended_validator_bounds (tasks : List Task)
    (h : validate_task_plan tasks = Except.ok true) :
    ∀ t ∈ tasks, ∀ d ∈ t.dependencies, 1 ≤ d ∧ d < t.id :=
  validateTasksFrom_ok h

theorem c5_witness : 1 ≤ (1 : Int) ∧ (1 : Int) < c5_dangling_task.id :=
  c5_amended_validator_bounds [c5_dangling_task] rfl c5_dangling_task (by decide) 1
    (by decide)

def c6_old_task : Task :=
  { id := 1, role := "UIWorker", goal := "old ui", status := "pending",
    dependencies := [], result := none, generated_test_cases := none,
    self_validation_status := none }

def c6_state : AgentState :=
  { baseState with task_plan := [c6_old_task], user_interrupt := some "change of scope" }

/-- Counterexample to C6: a replanning step of manager_planning_node (a
state with a pending interrupt) whose generated, validated task list is
empty drops the task that was in the Plan before the step. -/
theorem c6_counterexample :
    c6_old_task ∈ c6_state.task_plan ∧
    c6_old_task ∉ (manager_planning_node c6_state (Except.ok ([], "replan"))).task_plan := by
  refine ⟨by decide, by decide⟩

/-- C6 as amended: a replanning step of manager_planning_node replaces
the Plan wholesale with the freshly generated, validated task list; a
task present before the step persists only if the generator re-emits it,
since the node itself preserves nothing from the previous plan. -/
theorem c6_amended_plan_replacement (state : AgentState) (tasks : List Task)
    (r : String) (b : Bool) (h : validate_task_plan tasks = Except.ok b) :
    (manager_planning_node state (Except.ok (tasks, r))).task_plan =
      create_task_objects tasks := by
  unfold manager_planning_node
  dsimp only
  rw [h]
  dsimp only
  split
  · rfl
  · rfl

theorem c6_witness :
    (manager_planning_node c6_state (Except.ok ([c6_old_task], "revised"))).task_plan =
      create_task_objects [c6_old_task] :=
  c6_amended_plan_replacement c6_state [c6_old_task] "revised" true rfl

def c7_t1 : Task :=
  { id := 1, role := "ArchitectWorker", goal := "design", status := "completed",
    dependencies := [], result := some "r1", generated_test_cases := none,
    self_validation_status := some "Passed" }

def c7_t2 : Task :=
  { id := 2, role := "BackendWorker", goal := "api", status := "completed",
    dependencies := [], result := some "r2", generated_test_cases := none,
    self_validation_status := some "Passed" }

def c7_state : AgentState := { baseState with completed_tasks := [c7_t2, c7_t1] }

/-- Counterexample to C7: with the completed list ordered id 2 before
id 1, the deliverable lines come out in that input order, so the line of
the higher id precedes the line of the lower id instead of ascending
task-id order; the deliverable embeds the lines in exactly that order. -/
theorem c7_counterexample :
    deliverable_parts [c7_t2, c7_t1] = [taskLine c7_t2, taskLine c7_t1] ∧
    deliverable_parts [c7_t2, c7_t1] ≠ [taskLine c7_t1, taskLine c7_t2] ∧
    c7_t1.id < c7_t2.id ∧
    (aggregator_node c7_state).final_deliverable =
      deliverable_text c7_state [taskLine c7_t2, taskLine c7_t1] := by
  refine ⟨rfl, by decide, by decide, rfl⟩

lemma deliverable_parts_eq_map (completed : List Task) :
    deliverable_parts completed = completed.map taskLine := by
  have haux : ∀ (l : List Task) (acc : List String),
      l.foldl (fun a t => a ++ [taskLine t]) acc = acc ++ l.map taskLine := by
    intro l
    induction l with
    | nil => intro acc; simp
    | cons a rest ih =>
      intro acc
      simp [List.foldl_cons, ih]
  simpa using haux completed []

/-- C7 as amended: the deliverable contains exactly one role-and-result
line per completed task, in the order of the completed_tasks list (not
sorted by id), and the empty list yields the fixed placeholder string
rather than an error. -/
theorem c7_amended_aggregator_lines (s : AgentState) :
    (s.completed_tasks = [] →
      (aggregator_node s).final_deliverable = "No work completed yet") ∧
    deliverable_parts s.completed_tasks = s.completed_tasks.map taskLine ∧
    (s.completed_tasks ≠ [] →
      (aggregator_node s).final_deliverable =
        deliverable_text s (s.completed_tasks.map taskLine)) := by
  refine ⟨?_, deliverable_parts_eq_map s.completed_tasks, ?_⟩
  · intro h
    unfold aggregator_node
    rw [if_pos (by rw [List.isEmpty_iff]; exact h)]
  · intro h
    unfold aggregator_node
    rw [if_neg (by rw [List.isEmpty_iff]; exact h), deliverable_parts_eq_map]

def c7_empty_state : AgentState := { baseState with clarified_request := "req" }

theorem c7_witness :
    (aggregator_node c7_empty_state).final_deliverable = "No work completed yet" ∧
    (aggregator_node c7_state).final_deliverable =
      deliverable_text c7_state (c7_state.completed_tasks.map taskLine) :=
  ⟨(c7_amended_aggregator_lines c7_empty_state).1 rfl,
   (c7_amended_aggregator_lines c7_state).2.2 (by decide)⟩

/-- C8: execute_task never returns a task whose status is in_progress,
and when any stage of the build, test-generation or test-execution
pipeline raises, the boundary handler returns the task with status
failed, self_validation_status Failed and a result string beginning with
the Error: marker. -/
theorem c8_execute_task_boundary (task : Task) (run : PipelineRun) :
    (execute_task task run).status ≠ "in_progress" ∧
    ((∃ e, run.build = Except.error e) ∨ (∃ e, run.generate_tests = Except.error e) ∨
      (∃ e, run.execute_tests = Except.error e) →
      (execute_task task run).status = "failed" ∧
      (execute_task task run).self_validation_status = some "Failed" ∧
      ∃ e, (execute_task task run).result = some ("Error: " ++ e)) := by
  obtain ⟨b, g, x⟩ := run
  constructor
  · cases b with
    | error e => simp [execute_task, taskOnError]
    | ok bv =>
      cases g with
      | error e => simp [execute_task, taskOnError]
      | ok gv =>
        cases x with
        | error e => simp [execute_task, taskOnError]
        | ok xv =>
          by_cases hall : xv.all (fun r => r.passed) = true
          · simp [execute_task, hall]
          · simp [execute_task, hall]
  · intro h
    cases b with
    | error e => exact ⟨rfl, rfl, e, rfl⟩
    | ok bv =>
      cases g with
      | error e => exact ⟨rfl, rfl, e, rfl⟩
      | ok gv =>
        cases x with
        | error e => exact ⟨rfl, rfl, e, rfl⟩
        | ok xv =>
          rcases h with ⟨e, he⟩ | ⟨e, he⟩ | ⟨e, he⟩ <;> cases he

def c8_task : Task :=
  { id := 3, role := "FrontendWorker", goal := "page", status := "in_progress",
    dependencies := [], result := none, generated_test_cases := none,
    self_validation_status := none }

def c8_run : PipelineRun :=
  { build := Except.error "generation timed out",
    generate_tests := Except.ok [], execute_tests := Except.ok [] }

theorem c8_witness :
    (execute_task c8_task c8_run).status ≠ "in_progress" ∧
    (execute_task c8_task c8_run).status = "failed" ∧
    (execute_task c8_task c8_run).self_validation_status = some "Failed" ∧
    ∃ e, (execute_task c8_task c8_run).result = some ("Error: " ++ e) :=
  ⟨(c8_execute_task_boundary c8_task c8_run).1,
   (c8_execute_task_boundary c8_task c8_run).2
     (Or.inl ⟨"generation timed out", rfl⟩)⟩

/-- C9: whatever the input state, when plan generation fails at any point
(the LLM call or the parse of its output raises, or the parsed task list
fails validation), manager_planning_node does not raise past its
boundary: it returns the state with an empty task plan. -/
theorem c9_plan_failure_yields_empty_plan (state : AgentState)
    (parsed : Except String (List Task × String)) :
    (∀ e, parsed = Except.error e →
      (manager_planning_node state parsed).task_plan = []) ∧
    (∀ tasks r e, parsed = Except.ok (tasks, r) →
      validate_task_plan tasks = Except.error e →
      (manager_planning_node state parsed).task_plan = []) := by
  constructor
  · rintro e rfl
    rfl
  · rintro tasks r e rfl hval
    unfold manager_planning_node
    dsimp only
    rw [hval]

def c9_bad_task : Task :=
  { id := 1, role := "NoSuchWorker", goal := "mystery", status := "pending",
    dependencies := [], result := none, generated_test_cases := none,
    self_validation_status := none }

theorem c9_witness :
    (manager_planning_node baseState (Except.error "llm unavailable")).task_plan = [] ∧
    (manager_planning_node baseState (Except.ok ([c9_bad_task], "r"))).task_plan = [] :=
  ⟨(c9_plan_failure_yields_empty_plan baseState (Except.error "llm unavailable")).1
      "llm unavailable" rfl,
   (c9_plan_failure_yields_empty_plan baseState (Except.ok ([c9_bad_task], "r"))).2
      [c9_bad_task] "r" ("Invalid role " ++ "NoSuchWorker") rfl rfl⟩

/-- C10: for every input state the Tester emits a ValidationReport with
status Passed, so route_after_tester on the Tester's output always
returns the passed label and the Failed branch of the acceptance gate is
unreachable from the Tester's output. -/
theorem c10_tester_always_passes (s : AgentState) :
    (tester s).validation_report.status = "Passed" ∧
    route_after_tester (tester s) = "passed" ∧
    genesisSuccessor GNode.tester (tester s) = none := by
  refine ⟨rfl, rfl, rfl⟩

end Genesis
